import Mathlib

/-!
Verification development for the MXU custom-action runtime
(`src-tauri/src/mxu_actions.rs`).

The runtime is shallowly embedded: each Rust action callback becomes a Lean
function from its decoded environment (external collaborators such as the
stopping signal, the process table, the HTTP transport, the local clock) and
its raw parameter payload to a structured outcome value.  Side effects are
made observable by recording them in the outcome type instead of performing
them: an outcome constructor such as `paramError` records that the action
returned `false` before attempting any effect, while constructors such as
`spawn`, `sent` or `killed` record exactly which effect was attempted.

JSON payloads are modelled by the `Json` inductive below; a raw payload that
`serde_json::from_str` cannot parse is represented by `none : Option Json`,
since every action only branches on the `Ok`/`Err` result of that parse.
-/

namespace MXU

/-- Model of a parsed `serde_json::Value`.  `num` covers the integral numbers
the actions inspect (`as_u64` on a non-integral or negative number yields
`None`, matching `Json.asU64` below). -/
inductive Json where
  | null : Json
  | bool (b : Bool) : Json
  | num (n : Int) : Json
  | str (s : String) : Json
  | arr (elems : List Json) : Json
  | obj (fields : List (String × Json)) : Json

/-- `serde_json::Value::get(key)`: field lookup on an object, `None` on any
other value. -/
def Json.get (j : Json) (key : String) : Option Json :=
  match j with
  | .obj fields => fields.lookup key
  | _ => none

/-- `Value::as_str`. -/
def Json.asStr : Json → Option String
  | .str s => some s
  | _ => none

/-- `Value::as_bool`. -/
def Json.asBool : Json → Option Bool
  | .bool b => some b
  | _ => none

/-- `Value::as_u64`: the number, when it is an integer representable as a
`u64`. -/
def Json.asU64 : Json → Option Nat
  | .num n => if 0 ≤ n ∧ n < (2 : Int) ^ 64 then some n.toNat else none
  | _ => none

-- ===========================================================================
-- Rust string helpers used by the actions
-- ===========================================================================

/-- Rust `str::trim`, as the trimmed character list: leading and trailing
whitespace removed.  (Rust trims Unicode `White_Space`; the actions only use
`trim` to test emptiness, for which ASCII whitespace suffices.) -/
def rustTrim (s : String) : List Char :=
  ((s.data.dropWhile Char.isWhitespace).reverse.dropWhile Char.isWhitespace).reverse

/-- Helper for `splitOnChar`: accumulate the current piece. -/
def splitOnCharAux (sep : Char) (cur : List Char) : List Char → List String
  | [] => [String.mk cur]
  | c :: rest =>
    if c = sep then String.mk cur :: splitOnCharAux sep [] rest
    else splitOnCharAux sep (cur ++ [c]) rest

/-- Rust `str::split(sep)` for a character separator: adjacent separators and
ends yield empty pieces, and the empty string yields `[""]`. -/
def splitOnChar (sep : Char) (s : String) : List String :=
  splitOnCharAux sep [] s.data

/-- Helper for `rustSplitWhitespace`: accumulate the current word, dropping
empty ones. -/
def rustSplitWhitespaceAux (cur : List Char) : List Char → List String
  | [] => if cur.isEmpty then [] else [String.mk cur]
  | c :: rest =>
    if c.isWhitespace then
      if cur.isEmpty then rustSplitWhitespaceAux [] rest
      else String.mk cur :: rustSplitWhitespaceAux [] rest
    else rustSplitWhitespaceAux (cur ++ [c]) rest

/-- Rust `str::split_whitespace`: split at whitespace runs, no empty
pieces. -/
def rustSplitWhitespace (s : String) : List String :=
  rustSplitWhitespaceAux [] s.data

-- ===========================================================================
-- Cancellable wait primitive: `wait_with_stop_check`
-- ===========================================================================

/-- Observable outcome of one run of the wait loop in `wait_with_stop_check`:
whether it completed (`true`) or was interrupted by the stopping signal
(`false`), how many milliseconds were slept, and how many times the stopping
signal was polled. -/
structure WaitResult where
  completed : Bool
  sleptMs : Nat
  polls : Nat
deriving DecidableEq, Repr

/-- The `while start.elapsed() < total` loop of `wait_with_stop_check`,
with time in milliseconds.  `stopping e` is the value of the engine's
stopping signal at elapsed time `e`: the signal is polled once per
iteration, before sleeping `min remain 200`.  Termination: each iteration
sleeps at least one millisecond. -/
def waitLoop (stopping : Nat → Bool) (total : Nat) (elapsed : Nat) (polls : Nat) :
    WaitResult :=
  if h : elapsed < total then
    if stopping elapsed then
      ⟨false, elapsed, polls + 1⟩
    else
      waitLoop stopping total (elapsed + min (total - elapsed) 200) (polls + 1)
  else
    ⟨true, elapsed, polls⟩
termination_by total - elapsed
decreasing_by omega

/-- `wait_with_stop_check(ctx, total_secs)`: run the poll loop over
`total_secs * 1000` milliseconds with a 200 ms poll step. -/
def wait_with_stop_check (stopping : Nat → Bool) (total_secs : Nat) : WaitResult :=
  waitLoop stopping (total_secs * 1000) 0 0

-- ===========================================================================
-- Action name constants
-- ===========================================================================

def MXU_SLEEP_ACTION : String := "MXU_SLEEP_ACTION"
def MXU_WAITUNTIL_ACTION : String := "MXU_WAITUNTIL_ACTION"
def MXU_LAUNCH_ACTION : String := "MXU_LAUNCH_ACTION"
def MXU_WEBHOOK_ACTION : String := "MXU_WEBHOOK_ACTION"
def MXU_NOTIFY_ACTION : String := "MXU_NOTIFY_ACTION"
def MXU_KILLPROC_ACTION : String := "MXU_KILLPROC_ACTION"
def MXU_POWER_ACTION : String := "MXU_POWER_ACTION"

-- ===========================================================================
-- MXU_SLEEP
-- ===========================================================================

/-- `mxu_sleep_action_fn`: decode `sleep_time` (defaulting to 5 both when the
payload fails to parse and when the field is absent or not a `u64`), then run
the cancellable wait.  The boolean result returned to the engine is
`(… ).completed`. -/
def mxu_sleep_action_fn (stopping : Nat → Bool) (param : Option Json) : WaitResult :=
  let sleep_seconds : Nat :=
    match param with
    | some json => ((json.get "sleep_time").bind Json.asU64).getD 5
    | none => 5
  wait_with_stop_check stopping sleep_seconds

-- ===========================================================================
-- MXU_WAITUNTIL
-- ===========================================================================

/-- Rust `str::parse::<u32>` (`u32::from_str`): an optional leading `+`
followed by one or more ASCII digits, no other characters, rejecting values
that overflow a `u32`. -/
def parseU32 (s : String) : Option Nat :=
  let digits : List Char :=
    match s.data with
    | '+' :: rest => rest
    | cs => cs
  if digits.isEmpty then none
  else if digits.all Char.isDigit then
    let v := digits.foldl (fun acc c => acc * 10 + (c.toNat - 48)) 0
    if v < 2 ^ 32 then some v else none
  else none

/-- `NaiveDate::and_hms_opt`: today's naive local timestamp at
`(hour, minute, sec)`, as the pair (calendar day, second of day); `none` when
a component is out of range. -/
def and_hms_opt (day : Int) (hour minute sec : Nat) : Option (Int × Nat) :=
  if hour < 24 ∧ minute < 60 ∧ sec < 60 then
    some (day, hour * 3600 + minute * 60 + sec)
  else none

/-- The local-clock collaborators of `mxu_waituntil_action_fn`, at one
invocation instant, with time in whole seconds.

`resolveLocal d s` models `Local.from_local_datetime(naive).single()`: the
absolute instant (seconds) of the naive local wall-clock time at second `s`
of calendar day `d`, or `none` when that local time is ambiguous or
nonexistent (DST transition).  `nowDay`/`nowSec` are `now.date_naive()`
split into day and second-of-day, and `nowAbs` is the absolute instant of
`now`. -/
structure TimeEnv where
  nowDay : Int
  nowSec : Nat
  nowAbs : Int
  resolveLocal : Int → Nat → Option Int

/-- Observable outcome of `mxu_waituntil_action_fn`: `paramError` records a
`false` return before any deadline was resolved or any wait attempted;
`waited secs wr` records that a deadline `secs` seconds away was resolved
and the cancellable wait ran with result `wr` (the boolean returned to the
engine being `wr.completed`). -/
inductive WaitUntilOutcome where
  | paramError : WaitUntilOutcome
  | waited (waitSecs : Nat) (wr : WaitResult) : WaitUntilOutcome
deriving DecidableEq, Repr

/-- `mxu_waituntil_action_fn`: decode `target_time` as "HH:MM", resolve the
deadline against the local clock (next day when the candidate is not strictly
in the future; `chrono::Duration::days(1)` adds 86400 absolute seconds), and
run the cancellable wait for `max (deadline - now) 0` seconds. -/
def mxu_waituntil_action_fn (env : TimeEnv) (stopping : Nat → Bool)
    (param : Option Json) : WaitUntilOutcome :=
  match param with
  | none => .paramError
  | some json =>
    match ((json.get "target_time").bind Json.asStr) with
    | none => .paramError
    | some target_time =>
      if (rustTrim target_time).isEmpty then .paramError
      else
        match splitOnChar ':' target_time with
        | p0 :: p1 :: _ =>
          match parseU32 p0 with
          | some target_hour =>
            if target_hour < 24 then
              match parseU32 p1 with
              | some target_minute =>
                if target_minute < 60 then
                  match and_hms_opt env.nowDay target_hour target_minute 0 with
                  | none => .paramError
                  | some (d, s) =>
                    match env.resolveLocal d s with
                    | none => .paramError
                    | some today_target =>
                      let wait_duration : Int :=
                        if env.nowAbs < today_target then today_target - env.nowAbs
                        else (today_target + 86400) - env.nowAbs
                      let wait_secs : Nat := (max wait_duration 0).toNat
                      .waited wait_secs (wait_with_stop_check stopping wait_secs)
                else .paramError
              | none => .paramError
            else .paramError
          | none => .paramError
        | _ => .paramError

-- ===========================================================================
-- MXU_LAUNCH
-- ===========================================================================

/-- Parser states of `shell_words::split`, the shell-quoting-aware tokenizer
`mxu_launch_action_fn` applies to its `args` string. -/
inductive SwState where
  | delimiter : SwState
  | backslash : SwState
  | unquoted : SwState
  | unquotedBackslash : SwState
  | singleQuoted : SwState
  | doubleQuoted : SwState
  | doubleQuotedBackslash : SwState
  | comment : SwState
deriving DecidableEq, Repr

/-- The character loop of `shell_words::split`.  `word` is the token being
accumulated, `result` the completed tokens; `none` models the `ParseError`
returned on an unterminated quote. -/
def shellSplitLoop (state : SwState) (word : List Char) (result : List String) :
    List Char → Option (List String)
  | [] =>
    match state with
    | .delimiter => some result
    | .backslash => some (result ++ [String.mk (word ++ ['\\'])])
    | .unquoted => some (result ++ [String.mk word])
    | .unquotedBackslash => some (result ++ [String.mk (word ++ ['\\'])])
    | .singleQuoted => none
    | .doubleQuoted => none
    | .doubleQuotedBackslash => none
    | .comment => some result
  | c :: rest =>
    match state with
    | .delimiter =>
      if c = '\'' then shellSplitLoop .singleQuoted word result rest
      else if c = '"' then shellSplitLoop .doubleQuoted word result rest
      else if c = '\\' then shellSplitLoop .backslash word result rest
      else if c = '\t' ∨ c = ' ' ∨ c = '\n' then shellSplitLoop .delimiter word result rest
      else if c = '#' then shellSplitLoop .comment word result rest
      else shellSplitLoop .unquoted (word ++ [c]) result rest
    | .backslash =>
      if c = '\n' then shellSplitLoop .delimiter word result rest
      else shellSplitLoop .unquoted (word ++ [c]) result rest
    | .unquoted =>
      if c = '\'' then shellSplitLoop .singleQuoted word result rest
      else if c = '"' then shellSplitLoop .doubleQuoted word result rest
      else if c = '\\' then shellSplitLoop .unquotedBackslash word result rest
      else if c = '\t' ∨ c = ' ' ∨ c = '\n' then
        shellSplitLoop .delimiter [] (result ++ [String.mk word]) rest
      else shellSplitLoop .unquoted (word ++ [c]) result rest
    | .unquotedBackslash =>
      if c = '\n' then shellSplitLoop .unquoted word result rest
      else shellSplitLoop .unquoted (word ++ [c]) result rest
    | .singleQuoted =>
      if c = '\'' then shellSplitLoop .unquoted word result rest
      else shellSplitLoop .singleQuoted (word ++ [c]) result rest
    | .doubleQuoted =>
      if c = '"' then shellSplitLoop .unquoted word result rest
      else if c = '\\' then shellSplitLoop .doubleQuotedBackslash word result rest
      else shellSplitLoop .doubleQuoted (word ++ [c]) result rest
    | .doubleQuotedBackslash =>
      if c = '\n' then shellSplitLoop .doubleQuoted word result rest
      else if c = '$' ∨ c = Char.ofNat 96 ∨ c = '"' ∨ c = '\\' then
        shellSplitLoop .doubleQuoted (word ++ [c]) result rest
      else shellSplitLoop .doubleQuoted (word ++ ['\\', c]) result rest
    | .comment =>
      if c = '\n' then shellSplitLoop .delimiter word result rest
      else shellSplitLoop .comment word result rest

/-- `shell_words::split(s)`: `some tokens` on success, `none` on a parse
error (unterminated quote). -/
def shell_words_split (s : String) : Option (List String) :=
  shellSplitLoop .delimiter [] [] s.data

/-- The `args_vec` computation of `mxu_launch_action_fn`: an empty or
whitespace-only `args` string yields no arguments; otherwise tokenize with
`shell_words::split`, falling back to naive whitespace splitting when the
tokenizer fails (the fallback is logged). -/
def launchArgsVec (args_str : String) : List String :=
  if (rustTrim args_str).isEmpty then []
  else
    match shell_words_split args_str with
    | some parsed => parsed
    | none => rustSplitWhitespace args_str

/-- External collaborator of `mxu_launch_action_fn`:
`crate::commands::system::check_process_running`. -/
structure LaunchEnv where
  processRunning : String → Bool

/-- Observable decision of `mxu_launch_action_fn` before any process is
touched: `paramError` records a `false` return with no spawn attempted,
`skipRunning` a `true` return with no spawn (`skip_if_running` hit), and
`spawn` records exactly the program, argument vector and wait mode handed to
`std::process::Command`. -/
inductive LaunchPlan where
  | paramError : LaunchPlan
  | skipRunning (program : String) : LaunchPlan
  | spawn (program : String) (args : List String) (waitForExit : Bool) : LaunchPlan
deriving DecidableEq, Repr

/-- `mxu_launch_action_fn`, decode-and-decide stage: validate `program`,
decode `args` / `wait_for_exit` / `skip_if_running` with their defaults,
honour `skip_if_running`, and tokenize the arguments. -/
def mxu_launch_action_fn (env : LaunchEnv) (param : Option Json) : LaunchPlan :=
  match param with
  | none => .paramError
  | some json =>
    match (json.get "program").bind Json.asStr with
    | some p =>
      if (rustTrim p).isEmpty then .paramError
      else
        let program := p
        let args_str := ((json.get "args").bind Json.asStr).getD ""
        let wait_for_exit := ((json.get "wait_for_exit").bind Json.asBool).getD false
        let skip_if_running := ((json.get "skip_if_running").bind Json.asBool).getD false
        if skip_if_running ∧ env.processRunning program then
          .skipRunning program
        else
          .spawn program (launchArgsVec args_str) wait_for_exit
    | none => .paramError

/-- Result stage of `mxu_launch_action_fn`: `statusResult` models
`cmd.status()` (`ok code` for any process exit, with any exit code; `error`
for an OS-level spawn failure) and `spawnResult` models `cmd.spawn()`.  The
boolean is what the action returns to the engine. -/
def launchResult (plan : LaunchPlan) (statusResult : Except String Int)
    (spawnResult : Except String Unit) : Bool :=
  match plan with
  | .paramError => false
  | .skipRunning _ => true
  | .spawn _ _ true =>
    match statusResult with
    | .ok _exit_code => true
    | .error _ => false
  | .spawn _ _ false =>
    match spawnResult with
    | .ok _ => true
    | .error _ => false

-- ===========================================================================
-- MXU_WEBHOOK
-- ===========================================================================

/-- A received HTTP response, reduced to its status code. -/
structure HttpResponse where
  status : Nat
deriving DecidableEq, Repr

/-- `StatusCode::is_success`: 2xx. -/
def statusIsSuccess (st : Nat) : Bool :=
  200 ≤ st ∧ st < 300

/-- External collaborators of `mxu_webhook_action_fn`: whether
`Client::builder().timeout(10s).build()` succeeds, and the outcome of
`client.get(url).send()` — `ok` carries any received HTTP response (the
fixed 10-second timeout is part of this transport model), `error` a
transport-level failure (DNS, connect, timeout). -/
structure WebhookEnv where
  builderOk : Bool
  send : String → Except String HttpResponse

/-- Observable outcome of `mxu_webhook_action_fn`: `paramError` and
`clientBuildFailed` record a `false` return with no request issued; `sent
url b` records that the single GET to `url` was issued and the action
returned `b`. -/
inductive WebhookOutcome where
  | paramError : WebhookOutcome
  | clientBuildFailed : WebhookOutcome
  | sent (url : String) (result : Bool) : WebhookOutcome
deriving DecidableEq, Repr

/-- `mxu_webhook_action_fn`: validate `url`, build the client, issue one GET.
The source returns `true` on any received response — the non-2xx branch logs
a warning and still returns `true` — and `false` on a transport error. -/
def mxu_webhook_action_fn (env : WebhookEnv) (param : Option Json) : WebhookOutcome :=
  match param with
  | none => .paramError
  | some json =>
    match (json.get "url").bind Json.asStr with
    | some u =>
      if (rustTrim u).isEmpty then .paramError
      else
        if env.builderOk then
          match env.send u with
          | .ok resp => .sent u (if statusIsSuccess resp.status then true else true)
          | .error _ => .sent u false
        else .clientBuildFailed
    | none => .paramError

-- ===========================================================================
-- MXU_NOTIFY
-- ===========================================================================

/-- External collaborator of `mxu_notify_action_fn`: the result of
`Notification::new().summary(title).body(body).show()`. -/
structure NotifyEnv where
  showNotification : String → String → Bool

/-- Observable outcome of `mxu_notify_action_fn`: `paramError` records a
`false` return with no notification attempted; `shown title body b` records
the displayed content and the returned boolean. -/
inductive NotifyOutcome where
  | paramError : NotifyOutcome
  | shown (title body : String) (result : Bool) : NotifyOutcome
deriving DecidableEq, Repr

/-- `mxu_notify_action_fn`: `title` defaults to "MXU", `body` to "", then the
platform notification is shown. -/
def mxu_notify_action_fn (env : NotifyEnv) (param : Option Json) : NotifyOutcome :=
  match param with
  | none => .paramError
  | some json =>
    let title := ((json.get "title").bind Json.asStr).getD "MXU"
    let body := ((json.get "body").bind Json.asStr).getD ""
    .shown title body (env.showNotification title body)

-- ===========================================================================
-- MXU_KILLPROC
-- ===========================================================================

/-- External collaborators of `mxu_killproc_action_fn`: the resolved file
name of the current executable (`std::env::current_exe` + `file_name`), and
the boolean result of `kill_process_by_name`. -/
structure KillEnv where
  currentExeName : Option String
  killByName : String → Bool

/-- Observable outcome of `mxu_killproc_action_fn`: `paramError` records a
`false` return with no kill attempted; `processExit code` records
`std::process::exit(code)` — the host terminates and no boolean is returned
to the engine; `killed name b` records a kill-by-name of `name` returning
`b`. -/
inductive KillprocOutcome where
  | paramError : KillprocOutcome
  | processExit (code : Nat) : KillprocOutcome
  | killed (name : String) (result : Bool) : KillprocOutcome
deriving DecidableEq, Repr

/-- `mxu_killproc_action_fn`: `kill_self` defaults to `true`; when killing
self, an unresolvable executable name falls through to
`std::process::exit(0)`; otherwise a non-empty `process_name` is required. -/
def mxu_killproc_action_fn (env : KillEnv) (param : Option Json) : KillprocOutcome :=
  match param with
  | none => .paramError
  | some json =>
    let kill_self := ((json.get "kill_self").bind Json.asBool).getD true
    if kill_self then
      match env.currentExeName with
      | some name => .killed name (env.killByName name)
      | none => .processExit 0
    else
      match (json.get "process_name").bind Json.asStr with
      | some p =>
        if (rustTrim p).isEmpty then .paramError
        else .killed p (env.killByName p)
      | none => .paramError

-- ===========================================================================
-- MXU_POWER
-- ===========================================================================

/-- The four dispatched power operations. -/
inductive PowerOp where
  | shutdown : PowerOp
  | restart : PowerOp
  | screenoff : PowerOp
  | sleep : PowerOp
deriving DecidableEq, Repr

/-- External collaborator of `mxu_power_action_fn`: whether the
platform-specific command for an operation is issued successfully
(`execute_power_shutdown` and friends). -/
structure PowerEnv where
  issueCommand : PowerOp → Bool

/-- Observable outcome of `mxu_power_action_fn`: `paramError` records a
`false` return with no command attempted; `issued op b` records that the
platform command for `op` was attempted with result `b`; `unknownAction s`
records a `false` return on an unrecognized `power_action` string, with no
command attempted. -/
inductive PowerOutcome where
  | paramError : PowerOutcome
  | issued (op : PowerOp) (result : Bool) : PowerOutcome
  | unknownAction (action : String) : PowerOutcome
deriving DecidableEq, Repr

/-- `mxu_power_action_fn`: `power_action` defaults to "shutdown" whenever
the field is absent or not a JSON string, then dispatches on the four
recognized values. -/
def mxu_power_action_fn (env : PowerEnv) (param : Option Json) : PowerOutcome :=
  match param with
  | none => .paramError
  | some json =>
    let action := ((json.get "power_action").bind Json.asStr).getD "shutdown"
    if action = "shutdown" then .issued .shutdown (env.issueCommand .shutdown)
    else if action = "restart" then .issued .restart (env.issueCommand .restart)
    else if action = "screenoff" then .issued .screenoff (env.issueCommand .screenoff)
    else if action = "sleep" then .issued .sleep (env.issueCommand .sleep)
    else .unknownAction action

-- ===========================================================================
-- Fault-containment wrapper and registry (`register_all_mxu_actions`)
-- ===========================================================================

/-- The payload of an intercepted panic, as probed by the wrapper's
`downcast_ref` chain: a `&str`, an owned `String`, or anything else. -/
inductive PanicPayload where
  | strRef (s : String) : PanicPayload
  | ownedString (s : String) : PanicPayload
  | other : PanicPayload
deriving DecidableEq, Repr

/-- The best-effort diagnostic the wrapper extracts from a panic payload. -/
def panicMessage : PanicPayload → String
  | .strRef s => s
  | .ownedString s => s
  | .other => "Unknown panic payload"

/-- Result of running one action implementation inside
`std::panic::catch_unwind`: either a normal boolean return, or a panic with
its payload. -/
inductive RunResult where
  | ret (b : Bool) : RunResult
  | panicked (payload : PanicPayload) : RunResult
deriving DecidableEq, Repr

/-- What the engine observes from one wrapped invocation: the boolean result
and, when a panic was intercepted, the diagnostic line logged for it.  That
the wrapper is a total function into this type is the containment guarantee:
every invocation returns normally to the engine, so the host can service the
next one. -/
structure WrappedOutcome where
  result : Bool
  loggedPanic : Option String
deriving DecidableEq, Repr

/-- The closure built by `reg_action!` around each action implementation at
registration time: run the implementation under `catch_unwind`; on a panic,
extract the diagnostic, log it tagged with the action name, and return
`false` exactly as a normal failure. -/
def catchUnwindWrapper {α : Type} (name : String) (impl : α → RunResult) (x : α) :
    WrappedOutcome :=
  match impl x with
  | .ret b => ⟨b, none⟩
  | .panicked payload =>
    ⟨false, some ("[MXU] Custom action " ++ name ++ " panicked: " ++ panicMessage payload)⟩

/-- The seven action names `register_all_mxu_actions` registers, in
registration order. -/
def mxuActionNames : List String :=
  [MXU_SLEEP_ACTION, MXU_WAITUNTIL_ACTION, MXU_LAUNCH_ACTION, MXU_WEBHOOK_ACTION,
   MXU_NOTIFY_ACTION, MXU_KILLPROC_ACTION, MXU_POWER_ACTION]


-- ===========================================================================
-- Claims
-- ===========================================================================

/-- C1 counterexample: the Sleep action invoked with a malformed
(unparseable) JSON payload such as `"{"` and no stop request does not return
failure without side effect — it falls back to the default of 5 seconds,
sleeps 5000 ms (polling the stopping signal 25 times), and returns
success. -/
theorem sleep_malformed_payload_counterexample :
    mxu_sleep_action_fn (fun _ => false) none = ⟨true, 5000, 25⟩ := by
  simp [mxu_sleep_action_fn, wait_with_stop_check, waitLoop, Nat.min_def]

/-- C1 (amended): on a malformed (unparseable) JSON payload, the six actions
WaitUntil, Launch, Webhook, Notify, KillProcess and Power return failure
with no side effect attempted, while Sleep instead falls back to the default
of 5 seconds and proceeds with the cancellable wait. -/
theorem malformed_payload_param_error :
    (∀ env stopping, mxu_waituntil_action_fn env stopping none = .paramError)
    ∧ (∀ env, mxu_launch_action_fn env none = .paramError)
    ∧ (∀ env, mxu_webhook_action_fn env none = .paramError)
    ∧ (∀ env, mxu_notify_action_fn env none = .paramError)
    ∧ (∀ env, mxu_killproc_action_fn env none = .paramError)
    ∧ (∀ env, mxu_power_action_fn env none = .paramError)
    ∧ (∀ stopping, mxu_sleep_action_fn stopping none = wait_with_stop_check stopping 5) :=
  ⟨fun _ _ => rfl, fun _ => rfl, fun _ => rfl, fun _ => rfl, fun _ => rfl, fun _ => rfl,
   fun _ => rfl⟩

/-- C2: for every registered action name, the registration-time wrapper
converts a panic of the implementation into a normal `false` result and logs
the diagnostic extracted from the panic payload tagged with the action name;
the wrapper returns normally, so the panic does not propagate past it and
the host can service subsequent invocations. -/
theorem wrapper_contains_panics {α : Type} (name : String) (impl : α → RunResult)
    (x : α) (payload : PanicPayload)
    (hname : name ∈ mxuActionNames)
    (hpanic : impl x = .panicked payload) :
    catchUnwindWrapper name impl x =
      ⟨false, some ("[MXU] Custom action " ++ name ++ " panicked: " ++ panicMessage payload)⟩ := by
  clear hname
  simp [catchUnwindWrapper, hpanic]

/-- C2 witness: a Sleep stub that deliberately panics still yields a `false`
result and the tagged diagnostic. -/
theorem wrapper_contains_panics_witness :
    catchUnwindWrapper MXU_SLEEP_ACTION (fun (_ : Unit) => .panicked (.strRef "stub fault")) () =
      ⟨false, some "[MXU] Custom action MXU_SLEEP_ACTION panicked: stub fault"⟩ :=
  wrapper_contains_panics MXU_SLEEP_ACTION (fun _ => .panicked (.strRef "stub fault")) ()
    (.strRef "stub fault") (by simp [mxuActionNames]) rfl

/-- C3: for a well-formed "HH:MM" target that resolves to a unique local
candidate, the wait deadline is today's candidate when that candidate is
strictly after now, and exactly one calendar day (86400 s) later when it is
at or before now; the wait duration is the difference to now floored at
zero. -/
theorem waituntil_deadline_resolution (env : TimeEnv) (stopping : Nat → Bool)
    (s p0 p1 : String) (rest : List String) (h m : Nat) (cand : Int)
    (htrim : rustTrim s ≠ [])
    (hsplit : splitOnChar ':' s = p0 :: p1 :: rest)
    (hh : parseU32 p0 = some h) (hh24 : h < 24)
    (hm : parseU32 p1 = some m) (hm60 : m < 60)
    (hres : env.resolveLocal env.nowDay (h * 3600 + m * 60) = some cand) :
    mxu_waituntil_action_fn env stopping (some (.obj [("target_time", .str s)])) =
      .waited (max ((if env.nowAbs < cand then cand else cand + 86400) - env.nowAbs) 0).toNat
        (wait_with_stop_check stopping
          (max ((if env.nowAbs < cand then cand else cand + 86400) - env.nowAbs) 0).toNat) := by
  have hform : ((if env.nowAbs < cand then cand else cand + 86400) - env.nowAbs)
      = (if env.nowAbs < cand then cand - env.nowAbs else cand + 86400 - env.nowAbs) := by
    split <;> rfl
  rw [hform]
  simp [mxu_waituntil_action_fn, Json.get, Json.asStr, and_hms_opt, htrim, hsplit, hh, hm,
    hh24, hm60, hres]

/-- C3 witness: at local time 01:00 (3600 s past midnight of day 0, fixed
offset), the target "00:30" is at or before now and resolves to the next
day, 84600 s away. -/
theorem waituntil_deadline_resolution_witness :
    mxu_waituntil_action_fn ⟨0, 3600, 3600, fun d sec => some (d * 86400 + sec)⟩
      (fun _ => false) (some (.obj [("target_time", .str "00:30")])) =
      .waited 84600 (wait_with_stop_check (fun _ => false) 84600) := by
  have h := waituntil_deadline_resolution ⟨0, 3600, 3600, fun d sec => some (d * 86400 + sec)⟩
    (fun _ => false) "00:30" "00" "30" [] 0 30 1800 (by decide) rfl rfl (by decide) rfl
    (by decide) (by norm_num)
  simpa using h

/-- C4: WaitUntil returns failure, with the wait never entered, on every
malformed target: fewer than two colon-separated fields, a non-numeric hour
or minute, hour ≥ 24, minute ≥ 60, or a target whose local time is
ambiguous or nonexistent (DST transition) — in which case neither side is
picked. -/
theorem waituntil_rejects_invalid_targets (env : TimeEnv) (stopping : Nat → Bool)
    (s : String) :
    ((splitOnChar ':' s).length < 2 →
      mxu_waituntil_action_fn env stopping (some (.obj [("target_time", .str s)])) = .paramError)
    ∧ (∀ p0 p1 rest, splitOnChar ':' s = p0 :: p1 :: rest → parseU32 p0 = none →
      mxu_waituntil_action_fn env stopping (some (.obj [("target_time", .str s)])) = .paramError)
    ∧ (∀ p0 p1 rest h, splitOnChar ':' s = p0 :: p1 :: rest → parseU32 p0 = some h → 24 ≤ h →
      mxu_waituntil_action_fn env stopping (some (.obj [("target_time", .str s)])) = .paramError)
    ∧ (∀ p0 p1 rest h, splitOnChar ':' s = p0 :: p1 :: rest → parseU32 p0 = some h → h < 24 →
      parseU32 p1 = none →
      mxu_waituntil_action_fn env stopping (some (.obj [("target_time", .str s)])) = .paramError)
    ∧ (∀ p0 p1 rest h m, splitOnChar ':' s = p0 :: p1 :: rest → parseU32 p0 = some h → h < 24 →
      parseU32 p1 = some m → 60 ≤ m →
      mxu_waituntil_action_fn env stopping (some (.obj [("target_time", .str s)])) = .paramError)
    ∧ (∀ p0 p1 rest h m, splitOnChar ':' s = p0 :: p1 :: rest → parseU32 p0 = some h → h < 24 →
      parseU32 p1 = some m → m < 60 →
      env.resolveLocal env.nowDay (h * 3600 + m * 60) = none →
      mxu_waituntil_action_fn env stopping (some (.obj [("target_time", .str s)])) = .paramError) := by
  by_cases htrim : rustTrim s = []
  · refine ⟨fun _ => ?_, fun _ _ _ _ _ => ?_, fun _ _ _ _ _ _ _ => ?_,
      fun _ _ _ _ _ _ _ _ => ?_, fun _ _ _ _ _ _ _ _ _ _ => ?_,
      fun _ _ _ _ _ _ _ _ _ _ _ => ?_⟩ <;>
      simp [mxu_waituntil_action_fn, Json.get, Json.asStr, htrim]
  · refine ⟨?_, ?_, ?_, ?_, ?_, ?_⟩
    · intro hlen
      match hsp : splitOnChar ':' s with
      | [] => simp [mxu_waituntil_action_fn, Json.get, Json.asStr, htrim, hsp]
      | [p0] => simp [mxu_waituntil_action_fn, Json.get, Json.asStr, htrim, hsp]
      | p0 :: p1 :: rest => rw [hsp] at hlen; simp at hlen; omega
    · intro p0 p1 rest hsp hp0
      simp [mxu_waituntil_action_fn, Json.get, Json.asStr, htrim, hsp, hp0]
    · intro p0 p1 rest h hsp hp0 hge
      have hnlt : ¬ h < 24 := by omega
      simp [mxu_waituntil_action_fn, Json.get, Json.asStr, htrim, hsp, hp0, hnlt]
    · intro p0 p1 rest h hsp hp0 hlt hp1
      simp [mxu_waituntil_action_fn, Json.get, Json.asStr, htrim, hsp, hp0, hlt, hp1]
    · intro p0 p1 rest h m hsp hp0 hlt hp1 hge
      have hnlt : ¬ m < 60 := by omega
      simp [mxu_waituntil_action_fn, Json.get, Json.asStr, htrim, hsp, hp0, hlt, hp1, hnlt]
    · intro p0 p1 rest h m hsp hp0 hlt hp1 hmlt hres
      simp [mxu_waituntil_action_fn, Json.get, Json.asStr, and_hms_opt, htrim, hsp, hp0, hlt,
        hp1, hmlt, hres]

/-- C4 witness: hour 25 is rejected, and a DST-ambiguous 02:30 (the local
clock resolves it to no unique instant) is rejected, both with no wait
entered. -/
theorem waituntil_rejects_invalid_targets_witness :
    mxu_waituntil_action_fn ⟨0, 0, 0, fun d sec => some (d * 86400 + sec)⟩ (fun _ => false)
      (some (.obj [("target_time", .str "25:00")])) = .paramError
    ∧ mxu_waituntil_action_fn ⟨0, 0, 0, fun _ _ => none⟩ (fun _ => false)
      (some (.obj [("target_time", .str "02:30")])) = .paramError :=
  ⟨(waituntil_rejects_invalid_targets ⟨0, 0, 0, fun d sec => some (d * 86400 + sec)⟩
      (fun _ => false) "25:00").2.2.1 "25" "00" [] 25 rfl rfl (by decide),
   (waituntil_rejects_invalid_targets ⟨0, 0, 0, fun _ _ => none⟩
      (fun _ => false) "02:30").2.2.2.2.2 "02" "30" [] 2 30 rfl rfl (by decide) rfl (by decide)
      rfl⟩

/-- C5: for every stopping-signal context, the cancellable wait primitive
called with a total duration of 0 returns Completed having slept 0 ms and
polled the signal 0 times — it never enters its poll loop. -/
theorem wait_zero_completes_without_polling (stopping : Nat → Bool) :
    wait_with_stop_check stopping 0 = ⟨true, 0, 0⟩ := by
  simp [wait_with_stop_check, waitLoop]

/-- C6: Launch tokenizes its `args` string with the shell-quoting-aware
tokenizer: with a valid program the spawned argument vector is
`launchArgsVec args`; an empty or whitespace-only `args` yields zero
arguments; the quoted group in `--name "My Folder"` is one token; and when
the tokenizer fails the args string is split on whitespace instead. -/
theorem launch_args_tokenization (env : LaunchEnv) (prog s : String)
    (hprog : rustTrim prog ≠ []) :
    mxu_launch_action_fn env (some (.obj [("program", .str prog), ("args", .str s)]))
      = .spawn prog (launchArgsVec s) false
    ∧ (rustTrim s = [] → launchArgsVec s = [])
    ∧ launchArgsVec "--name \"My Folder\"" = ["--name", "My Folder"]
    ∧ (shell_words_split s = none → rustTrim s ≠ [] →
        launchArgsVec s = rustSplitWhitespace s) := by
  refine ⟨?_, ?_, rfl, ?_⟩
  · simp [mxu_launch_action_fn, Json.get, Json.asStr, Json.asBool, List.lookup, hprog]
  · intro hempty
    simp [launchArgsVec, hempty]
  · intro hfail hnonempty
    simp [launchArgsVec, hfail, hnonempty]

/-- C6 witness: a launch whose quoted args survive as one token, a
whitespace-only args string yielding zero arguments, and an unterminated
quote falling back to whitespace splitting. -/
theorem launch_args_tokenization_witness :
    mxu_launch_action_fn ⟨fun _ => false⟩
      (some (.obj [("program", .str "notepad"), ("args", .str "--name \"My Folder\"")]))
      = .spawn "notepad" ["--name", "My Folder"] false
    ∧ launchArgsVec "   " = []
    ∧ launchArgsVec "a \"b c" = rustSplitWhitespace "a \"b c" := by
  refine ⟨?_, ?_, ?_⟩
  · have h := launch_args_tokenization ⟨fun _ => false⟩ "notepad" "--name \"My Folder\""
      (by decide)
    rw [h.1, h.2.2.1]
  · exact (launch_args_tokenization ⟨fun _ => false⟩ "x" "   " (by decide)).2.1 (by decide)
  · exact (launch_args_tokenization ⟨fun _ => false⟩ "x" "a \"b c" (by decide)).2.2.2
      (by decide) (by decide)

/-- C7: Launch with wait_for_exit = true reports success for every process
exit regardless of the exit code, and reports failure exactly when the
process could not be run at all (spawn error, with the OS error logged). -/
theorem launch_wait_for_exit_ignores_exit_code (program : String) (args : List String)
    (code : Int) (oserr : String) (sr : Except String Unit) :
    launchResult (.spawn program args true) (.ok code) sr = true
    ∧ launchResult (.spawn program args true) (.error oserr) sr = false :=
  ⟨rfl, rfl⟩

/-- C8: with the HTTP client built, Webhook returns failure exactly on a
transport-level failure of its single GET; every received HTTP response,
including a non-2xx one, yields success. -/
theorem webhook_transport_failure_only (env : WebhookEnv) (u : String)
    (hb : env.builderOk = true) (hu : rustTrim u ≠ []) :
    (∀ resp, env.send u = .ok resp →
      mxu_webhook_action_fn env (some (.obj [("url", .str u)])) = .sent u true)
    ∧ (∀ e, env.send u = .error e →
      mxu_webhook_action_fn env (some (.obj [("url", .str u)])) = .sent u false) := by
  constructor
  · intro resp hs
    simp [mxu_webhook_action_fn, Json.get, Json.asStr, hu, hb, hs]
  · intro e hs
    simp [mxu_webhook_action_fn, Json.get, Json.asStr, hu, hb, hs]

/-- C8 witness: a received HTTP 500 response yields success; a DNS-level
transport failure yields failure. -/
theorem webhook_transport_failure_only_witness :
    mxu_webhook_action_fn ⟨true, fun _ => .ok ⟨500⟩⟩
      (some (.obj [("url", .str "http://host/hook")])) = .sent "http://host/hook" true
    ∧ mxu_webhook_action_fn ⟨true, fun _ => .error "dns error"⟩
      (some (.obj [("url", .str "http://host/hook")])) = .sent "http://host/hook" false :=
  ⟨(webhook_transport_failure_only ⟨true, fun _ => .ok ⟨500⟩⟩ "http://host/hook" rfl
      (by decide)).1 ⟨500⟩ rfl,
   (webhook_transport_failure_only ⟨true, fun _ => .error "dns error"⟩ "http://host/hook" rfl
      (by decide)).2 "dns error" rfl⟩

/-- C9: KillProcess with kill_self = true (also when the field is absent or
not a boolean, since true is the default) and an unresolvable current
executable name terminates the host process with exit code 0 instead of
returning a boolean to the engine. -/
theorem killproc_self_unresolvable_exits (env : KillEnv) (json : Json)
    (hexe : env.currentExeName = none)
    (hself : ((json.get "kill_self").bind Json.asBool).getD true = true) :
    mxu_killproc_action_fn env (some json) = .processExit 0 := by
  simp [mxu_killproc_action_fn, hself, hexe]

/-- C9 witness: default kill_self with no resolvable executable name exits
with code 0. -/
theorem killproc_self_unresolvable_exits_witness :
    mxu_killproc_action_fn ⟨none, fun _ => false⟩ (some (.obj [])) = .processExit 0 :=
  killproc_self_unresolvable_exits ⟨none, fun _ => false⟩ (.obj []) rfl rfl

/-- C10: when the power_action field is present but not a JSON string, the
default shutdown operation is dispatched and its platform command issued,
rather than the invocation being rejected. -/
theorem power_non_string_field_defaults_shutdown (env : PowerEnv) (v : Json)
    (rest : List (String × Json)) (hv : v.asStr = none) :
    mxu_power_action_fn env (some (.obj (("power_action", v) :: rest))) =
      .issued .shutdown (env.issueCommand .shutdown) := by
  simp [mxu_power_action_fn, Json.get, hv]

/-- C10 witness: a numeric power_action value falls back to shutdown. -/
theorem power_non_string_field_defaults_shutdown_witness :
    mxu_power_action_fn ⟨fun _ => true⟩ (some (.obj [("power_action", .num 5)])) =
      .issued .shutdown true :=
  power_non_string_field_defaults_shutdown ⟨fun _ => true⟩ (.num 5) [] rfl

end MXU
